import Mathlib

/-!
Shallow embedding of the `nimsforestsmarttv` Go package (SSDP/UPnP smart-TV
control with an embedded media server).  Strings are modelled as `List Char`,
byte payloads as `List Nat`.  Each definition mirrors one Go function of the
source (`tv.go`, `server.go`, `renderer.go`).
-/

deriving instance DecidableEq for Except

namespace SmartTV

/-- Model of Go `strings.HasPrefix s pat` (does `s` start with `pat`). -/
def goStartsWith (s pat : List Char) : Bool :=
  match pat, s with
  | [], _ => true
  | _ :: _, [] => false
  | d :: p, c :: t => c == d && goStartsWith t p

/-- Model of Go `strings.Contains s sub` (contiguous substring test). -/
def goContains : List Char → List Char → Bool
  | [], sub => goStartsWith [] sub
  | s@(_ :: t), sub => goStartsWith s sub || goContains t sub

/-- Model of Go `strings.HasSuffix s suf`. -/
def goHasSuffix (s suf : List Char) : Bool :=
  goStartsWith s.reverse suf.reverse

/-- Model of Go `strings.TrimSuffix s suf`: drop one trailing copy of `suf`. -/
def goTrimSuffix (s suf : List Char) : List Char :=
  if goHasSuffix s suf then s.take (s.length - suf.length) else s

/-- Model of Go `strings.ReplaceAll s (string pat) rep` for a one-character
pattern: a left-to-right scan replacing each occurrence, never rescanning
replacement text. -/
def replaceAllChar (pat : Char) (rep : List Char) : List Char → List Char
  | [] => []
  | c :: s => (if c == pat then rep else [c]) ++ replaceAllChar pat rep s

/-- `escapeXML` from `tv.go`: four sequential `strings.ReplaceAll` calls, in
source order `&`, `<`, `>`, `"`.  (The apostrophe is not escaped.) -/
def escapeXML (s : List Char) : List Char :=
  replaceAllChar '"' ("&quot;".data)
    (replaceAllChar '>' ("&gt;".data)
      (replaceAllChar '<' ("&lt;".data)
        (replaceAllChar '&' ("&amp;".data) s)))

/-- Decimal rendering of a natural number, the model of `fmt.Sprintf "%d"`. -/
def digitChar (d : Nat) : Char := Char.ofNat (48 + d)

/-- Decimal digit string, fuel-indexed so the recursion is structural (the
fuel strictly dominates the argument, so it is never exhausted when called
through `natToDec`). -/
def natToDecAux : Nat → Nat → List Char
  | 0, _ => []
  | fuel + 1, n =>
    if n < 10 then [digitChar n]
    else natToDecAux fuel (n / 10) ++ [digitChar (n % 10)]

/-- Decimal digit string of `n` (big-endian), as printed by `%d`. -/
def natToDec (n : Nat) : List Char := natToDecAux (n + 1) n

/-- Numeric value of a digit character. -/
def dval (c : Char) : Nat := c.toNat - 48

/-- Decimal evaluation of a digit string (big-endian). -/
def decValue (cs : List Char) : Nat :=
  cs.foldl (fun a c => a * 10 + dval c) 0

/-! ### SOAP / DIDL-Lite construction (`tv.go`)

The Go code builds each SOAP body with `fmt.Sprintf` over fixed templates;
we split every template at its `%s` holes into constant pieces. -/

/-- DIDL-Lite image metadata template of `setAVTransportURI`, part before the
URI hole. -/
def imgMetaPre : List Char :=
  ("<DIDL-Lite xmlns=\"urn:schemas-upnp-org:metadata-1-0/DIDL-Lite/\" xmlns:dc=\"http://purl.org/dc/elements/1.1/\" xmlns:upnp=\"urn:schemas-upnp-org:metadata-1-0/upnp/\"><item id=\"1\" parentID=\"0\" restricted=\"1\"><dc:title>Image</dc:title><upnp:class>object.item.imageItem.photo</upnp:class><res protocolInfo=\"http-get:*:image/jpeg:*\">").data

/-- DIDL-Lite metadata template, part after the URI hole (shared by the image
and video variants). -/
def metaPost : List Char := ("</res></item></DIDL-Lite>").data

/-- DIDL-Lite image metadata of `setAVTransportURI` before escaping: the raw
URI interpolated into the template. -/
def imageMetadata (uri : List Char) : List Char :=
  imgMetaPre ++ uri ++ metaPost

/-- `SetAVTransportURI` SOAP envelope template, part before the `CurrentURI`
hole. -/
def envPre : List Char :=
  ("<?xml version=\"1.0\" encoding=\"utf-8\"?>\n<s:Envelope xmlns:s=\"http://schemas.xmlsoap.org/soap/envelope/\" s:encodingStyle=\"http://schemas.xmlsoap.org/soap/encoding/\">\n  <s:Body>\n    <u:SetAVTransportURI xmlns:u=\"urn:schemas-upnp-org:service:AVTransport:1\">\n      <InstanceID>0</InstanceID>\n      <CurrentURI>").data

/-- `SetAVTransportURI` SOAP envelope template, between the `CurrentURI` and
`CurrentURIMetaData` holes. -/
def envMid : List Char :=
  ("</CurrentURI>\n      <CurrentURIMetaData>").data

/-- `SetAVTransportURI` SOAP envelope template, after the metadata hole. -/
def envPost : List Char :=
  ("</CurrentURIMetaData>\n    </u:SetAVTransportURI>\n  </s:Body>\n</s:Envelope>").data

/-- The SOAP body built by `TV.setAVTransportURI` in `tv.go`: the raw URI in
`CurrentURI`, and the image metadata (with the raw URI inside) escaped as a
whole in `CurrentURIMetaData`. -/
def setAVTransportURIBody (uri : List Char) : List Char :=
  envPre ++ uri ++ envMid ++ escapeXML (imageMetadata uri) ++ envPost

/-- Content-type selection of `TV.setAVTransportURIForVideo` in `tv.go`:
`application/x-mpegURL` when the URI ends with `".m3u8"` or contains the
dot-less substring `"m3u8"`, else `video/mp2t`. -/
def videoContentType (uri : List Char) : List Char :=
  if goHasSuffix uri (".m3u8").data || goContains uri ("m3u8").data then
    ("application/x-mpegURL").data
  else ("video/mp2t").data

/-- Video DIDL-Lite template, part before the title hole. -/
def vMetaPre : List Char :=
  ("<DIDL-Lite xmlns=\"urn:schemas-upnp-org:metadata-1-0/DIDL-Lite/\" xmlns:dc=\"http://purl.org/dc/elements/1.1/\" xmlns:upnp=\"urn:schemas-upnp-org:metadata-1-0/upnp/\"><item id=\"1\" parentID=\"0\" restricted=\"1\"><dc:title>").data

/-- Video DIDL-Lite template, between the title and upnp-class holes. -/
def vMetaMid1 : List Char := ("</dc:title><upnp:class>").data

/-- Video DIDL-Lite template, between the upnp-class and content-type holes. -/
def vMetaMid2 : List Char := ("</upnp:class><res protocolInfo=\"http-get:*:").data

/-- Video DIDL-Lite template, between the content-type and URI holes. -/
def vMetaMid3 : List Char := (":*\">").data

/-- The upnp class constant of `setAVTransportURIForVideo`. -/
def upnpClassVideo : List Char := ("object.item.videoItem").data

/-- DIDL-Lite video metadata of `setAVTransportURIForVideo` before escaping. -/
def videoMetadata (uri title : List Char) : List Char :=
  vMetaPre ++ title ++ vMetaMid1 ++ upnpClassVideo ++ vMetaMid2 ++
    videoContentType uri ++ vMetaMid3 ++ uri ++ metaPost

/-- The SOAP body built by `TV.setAVTransportURIForVideo` in `tv.go`. -/
def setAVTransportURIForVideoBody (uri title : List Char) : List Char :=
  envPre ++ uri ++ envMid ++ escapeXML (videoMetadata uri title) ++ envPost

/-! ### Spec-side definitions for refinement comparison -/

/-- Modelled from the spec sentence for C2 (comparison definition): content
type is `application/x-mpegURL` when the URI "ends with or contains `.m3u8`
(case-sensitive substring check)", else `video/mp2t`. -/
def videoContentTypeSpec (uri : List Char) : List Char :=
  if goHasSuffix uri (".m3u8").data || goContains uri (".m3u8").data then
    ("application/x-mpegURL").data
  else ("video/mp2t").data

/-- Escaping for all five XML metacharacters, modelled from the spec sentence
for C3 ("escaped for the five XML metacharacters"): like `escapeXML` but also
replacing the apostrophe by the `apos` entity. -/
def escapeXMLFive (s : List Char) : List Char :=
  replaceAllChar (Char.ofNat 39)
    ('&' :: 'a' :: 'p' :: 'o' :: 's' :: ';' :: []) (escapeXML s)

/-- Modelled from the spec sentence for C3 (comparison definition): the
`SetAVTransportURI` body with every interpolated string value escaped for the
five XML metacharacters before embedding — the URI inside the metadata, the
metadata inside the envelope, and the URI inside `CurrentURI`. -/
def setAVTransportURIBodySpecFive (uri : List Char) : List Char :=
  envPre ++ escapeXMLFive uri ++ envMid ++
    escapeXMLFive (imgMetaPre ++ escapeXMLFive uri ++ metaPost) ++ envPost

/-! ### SOAP response interpretation (`TV.sendSOAP` in `tv.go`) -/

/-- The UPnP error element marker searched for in a 200 response body. -/
def upnpErrMarker : List Char := ("<UPnPError").data

/-- The response-interpretation step of `TV.sendSOAP`: a non-200 status is an
error formatted `SOAP error: HTTP %d: %s`; a 200 body containing
`<UPnPError` is an error formatted `UPnP error: %s`; otherwise success. -/
def sendSOAPResult (status : Nat) (respBody : List Char) :
    Except (List Char) Unit :=
  if status ≠ 200 then
    Except.error
      (("SOAP error: HTTP ").data ++ natToDec status ++ (": ").data ++ respBody)
  else if goContains respBody upnpErrMarker then
    Except.error (("UPnP error: ").data ++ respBody)
  else Except.ok ()

/-! ### Device-description decoding (`parseDeviceDescription` in `tv.go`)

The XML decoding itself (Go `encoding/xml`) is outside the model: the
function below takes the already-decoded description record and the parsed
pieces of the location URL, exactly the data the Go code reads from them. -/

/-- One `<service>` element of the device description. -/
structure Service where
  serviceType : List Char
  controlURL : List Char
deriving DecidableEq

/-- The decoded device-description document. -/
structure DeviceDesc where
  urlBase : List Char
  friendlyName : List Char
  services : List Service
deriving DecidableEq

/-- The parsed pieces of the `location` URL that `parseDeviceDescription`
reads (`url.Parse` result): scheme, authority (`Host`), hostname, and the
optional numeric port. -/
structure LocURL where
  scheme : List Char
  host : List Char
  hostname : List Char
  port : Option Nat
deriving DecidableEq

/-- The `TV` record produced by a successful decode. -/
structure TVRec where
  name : List Char
  ip : List Char
  port : Nat
  controlURL : List Char
  baseURL : List Char
deriving DecidableEq

/-- Decode errors of `parseDeviceDescription` (for well-formed input the only
one is the missing AVTransport service). -/
inductive ParseErr where
  | noControlServiceFound
deriving DecidableEq

/-- The service-list scan of `parseDeviceDescription`: the `controlURL` of the
first service whose type contains `"AVTransport"`, `""` when none matches. -/
def findControlURL : List Service → List Char
  | [] => []
  | svc :: rest =>
    if goContains svc.serviceType ("AVTransport").data then svc.controlURL
    else findControlURL rest

/-- The base-URL resolution of `parseDeviceDescription`: prefer a non-empty
`URLBase`, else scheme+host of the location URL; trim one trailing slash. -/
def baseURLOf (desc : DeviceDesc) (loc : LocURL) : List Char :=
  goTrimSuffix
    (if desc.urlBase.isEmpty then loc.scheme ++ ("://").data ++ loc.host
     else desc.urlBase)
    (("/").data)

/-- The control-URL absolutization of `parseDeviceDescription`: keep an
`http`-prefixed URL as is, else join it to the base URL, inserting a slash
when the path lacks one. -/
def resolveControlURL (base c : List Char) : List Char :=
  if goStartsWith c ("http").data then c
  else base ++ (if goStartsWith c ("/").data then c else ("/").data ++ c)

/-- `parseDeviceDescription` from `tv.go` after XML decoding: base-URL
resolution, AVTransport lookup, control-URL absolutization, port default. -/
def parseDeviceDescription (desc : DeviceDesc) (loc : LocURL) :
    Except ParseErr TVRec :=
  if (findControlURL desc.services).isEmpty then
    Except.error ParseErr.noControlServiceFound
  else
    Except.ok
      { name := desc.friendlyName, ip := loc.hostname,
        port := loc.port.getD 80,
        controlURL :=
          resolveControlURL (baseURLOf desc loc) (findControlURL desc.services),
        baseURL := baseURLOf desc loc }

/-! ### The image store (`ImageServer` in `server.go`) -/

/-- The mutable state of an `ImageServer`: resolved address and port, the
`uint64` counter, the bounded path-keyed image map (association list with
unique keys), and the streaming slot. -/
structure StoreState where
  localIP : List Char
  port : Nat
  counter : Nat
  images : List (List Char × List Nat)
  latestFrame : Option (List Nat)
deriving DecidableEq

/-- Go map insert: overwrite the value when the key is present, else add the
entry. -/
def mapSet (m : List (List Char × List Nat)) (k : List Char) (v : List Nat) :
    List (List Char × List Nat) :=
  if m.any (fun kv => kv.1 == k) then
    m.map (fun kv => if kv.1 == k then (k, v) else kv)
  else m ++ [(k, v)]

/-- `ImageServer.Store` from `server.go`: bump the `uint64` counter, build the
path `/img_<id>_<nanotime>.jpg`, evict one arbitrary entry when the map holds
more than 10, insert, and return the absolute URL.  Go iterates the map in
unspecified order to pick the victim; the model picks the first entry, one
admissible order. -/
def storeStep (st : StoreState) (tNano : Nat) (payload : List Nat) :
    List Char × StoreState :=
  let id := (st.counter + 1) % 2 ^ 64
  let path :=
    ("/img_").data ++ natToDec id ++ ("_").data ++ natToDec tNano ++
      (".jpg").data
  let images0 := if st.images.length > 10 then st.images.drop 1 else st.images
  let images := mapSet images0 path payload
  (("http://").data ++ st.localIP ++ (":").data ++ natToDec st.port ++ path,
   { st with counter := id, images := images })

/-- `ImageServer.UpdateLatestFrame`: replace the streaming slot. -/
def updateLatestFrame (st : StoreState) (p : List Nat) : StoreState :=
  { st with latestFrame := some p }

/-- `ImageServer.StreamURL`: the fixed streaming endpoint URL. -/
def streamURL (st : StoreState) : List Char :=
  ("http://").data ++ st.localIP ++ (":").data ++ natToDec st.port ++
    ("/stream.jpg").data

/-- Fold of `storeStep` over a list of (nanotime, payload) store calls. -/
def runStores (st : StoreState) : List (Nat × List Nat) → StoreState
  | [] => st
  | (t, p) :: rest => runStores (storeStep st t p).2 rest

/-- A fresh `ImageServer` state as built by `NewImageServer`. -/
def initStore (ip : List Char) (port : Nat) : StoreState :=
  { localIP := ip, port := port, counter := 0, images := [],
    latestFrame := none }

/-! ### The orchestrator (`Renderer` in `renderer.go`)

The device is modelled as a function from SOAP action to the HTTP response
(status, body) it returns; each control call is that response interpreted by
`sendSOAPResult`.  Every operation additionally returns the list of SOAP
actions it issued, in order. -/

/-- The AVTransport actions issued by the renderer paths under study. -/
inductive Action where
  | setURI (uri : List Char)
  | play
  | stop
deriving DecidableEq

/-- One SOAP control call against a modelled device. -/
def callAction (dev : Action → Nat × List Char) (a : Action) :
    Except (List Char) Unit :=
  sendSOAPResult (dev a).1 (dev a).2

/-- The mutable state of a `Renderer`: the embedded image server and the set
of control-URL keys marked as already playing (`playingTVs`). -/
structure Renderer where
  server : StoreState
  playingTVs : List (List Char)

/-- `Renderer.DisplayJPEG` from `renderer.go`: store the payload, then
`SetAVTransportURI` with the returned URL, then `Play`; either control call
failing returns its error at once.  Also returns the actions issued. -/
def displayJPEG (r : Renderer) (dev : Action → Nat × List Char) (tNano : Nat)
    (p : List Nat) : Except (List Char) Unit × Renderer × List Action :=
  let url := (storeStep r.server tNano p).1
  let r1 : Renderer := { r with server := (storeStep r.server tNano p).2 }
  match callAction dev (Action.setURI url) with
  | Except.error e =>
    (Except.error (("set URI: ").data ++ e), r1, [Action.setURI url])
  | Except.ok _ =>
    match callAction dev Action.play with
    | Except.error e =>
      (Except.error (("play: ").data ++ e), r1,
       [Action.setURI url, Action.play])
    | Except.ok _ => (Except.ok (), r1, [Action.setURI url, Action.play])

/-- `Renderer.DisplayJPEGStream` from `renderer.go`: update the streaming
slot; when the device key is not yet marked playing, issue
`SetAVTransportURI` on the stream URL then `Play`, and mark the key only
after both succeed.  Also returns the actions issued. -/
def displayJPEGStream (r : Renderer) (dev : Action → Nat × List Char)
    (tvKey : List Char) (p : List Nat) :
    Except (List Char) Unit × Renderer × List Action :=
  let r1 : Renderer := { r with server := updateLatestFrame r.server p }
  if tvKey ∈ r1.playingTVs then (Except.ok (), r1, [])
  else
    let sURL := streamURL r1.server
    match callAction dev (Action.setURI sURL) with
    | Except.error e =>
      (Except.error (("set stream URI: ").data ++ e), r1, [Action.setURI sURL])
    | Except.ok _ =>
      match callAction dev Action.play with
      | Except.error e =>
        (Except.error (("play stream: ").data ++ e), r1,
         [Action.setURI sURL, Action.play])
      | Except.ok _ =>
        (Except.ok (), { r1 with playingTVs := tvKey :: r1.playingTVs },
         [Action.setURI sURL, Action.play])

/-- `Renderer.Stop` from `renderer.go`: delete the device key from
`playingTVs` first, then issue the SOAP `Stop` and return its result. -/
def stopRenderer (r : Renderer) (dev : Action → Nat × List Char)
    (tvKey : List Char) : Except (List Char) Unit × Renderer × List Action :=
  let r1 : Renderer :=
    { r with playingTVs := r.playingTVs.filter (fun k => !(k == tvKey)) }
  (callAction dev Action.stop, r1, [Action.stop])

/-! ### Lemmas about the string primitives -/

theorem goStartsWith_iff (pat : List Char) :
    ∀ s : List Char, goStartsWith s pat = true ↔ ∃ t, s = pat ++ t := by
  induction pat with
  | nil => intro s; simp only [goStartsWith, List.nil_append, true_iff]; exact ⟨s, rfl⟩
  | cons d p ih =>
    intro s
    cases s with
    | nil => simp [goStartsWith]
    | cons c t =>
      simp only [goStartsWith, Bool.and_eq_true, beq_iff_eq, ih,
        List.cons_append, List.cons.injEq]
      constructor
      · rintro ⟨rfl, u, rfl⟩; exact ⟨u, rfl, rfl⟩
      · rintro ⟨u, rfl, rfl⟩; exact ⟨rfl, u, rfl⟩

theorem goStartsWith_append (p t : List Char) :
    goStartsWith (p ++ t) p = true :=
  (goStartsWith_iff p (p ++ t)).mpr ⟨t, rfl⟩

theorem goContains_of_startsWith (s sub : List Char)
    (h : goStartsWith s sub = true) : goContains s sub = true := by
  cases s with
  | nil => exact h
  | cons c t => simp [goContains, h]

theorem goContains_cons (c : Char) (t sub : List Char)
    (h : goContains t sub = true) : goContains (c :: t) sub = true := by
  simp [goContains, h]

theorem goContains_append (x y z : List Char) :
    goContains (x ++ (y ++ z)) y = true := by
  induction x with
  | nil => exact goContains_of_startsWith _ _ (goStartsWith_append y z)
  | cons c x ih => exact goContains_cons _ _ _ ih

theorem goHasSuffix_iff (s suf : List Char) :
    goHasSuffix s suf = true ↔ ∃ t, s = t ++ suf := by
  unfold goHasSuffix
  rw [goStartsWith_iff]
  constructor
  · rintro ⟨t, ht⟩
    refine ⟨t.reverse, ?_⟩
    have := congrArg List.reverse ht
    simpa [List.reverse_append] using this
  · rintro ⟨t, rfl⟩
    exact ⟨t.reverse, by simp [List.reverse_append]⟩

theorem mem_replaceAllChar {c pat : Char} {rep s : List Char}
    (h : c ∈ replaceAllChar pat rep s) : c ∈ rep ∨ (c ∈ s ∧ c ≠ pat) := by
  induction s with
  | nil => simp [replaceAllChar] at h
  | cons d t ih =>
    simp only [replaceAllChar, List.mem_append] at h
    rcases h with h | h
    · by_cases hd : d == pat
      · rw [if_pos hd] at h; exact Or.inl h
      · rw [if_neg hd] at h
        simp only [List.mem_singleton] at h
        subst h
        exact Or.inr ⟨List.mem_cons_self c t, by simpa using hd⟩
    · rcases ih h with h | ⟨h1, h2⟩
      · exact Or.inl h
      · exact Or.inr ⟨List.mem_cons_of_mem _ h1, h2⟩

theorem escapeXML_no_lt (s : List Char) : '<' ∉ escapeXML s := by
  intro h
  rcases mem_replaceAllChar h with h1 | ⟨h1, -⟩
  · exact absurd h1 (by decide)
  rcases mem_replaceAllChar h1 with h2 | ⟨h2, -⟩
  · exact absurd h2 (by decide)
  rcases mem_replaceAllChar h2 with h3 | ⟨-, hne⟩
  · exact absurd h3 (by decide)
  · exact hne rfl

theorem escapeXML_no_gt (s : List Char) : '>' ∉ escapeXML s := by
  intro h
  rcases mem_replaceAllChar h with h1 | ⟨h1, -⟩
  · exact absurd h1 (by decide)
  rcases mem_replaceAllChar h1 with h2 | ⟨-, hne⟩
  · exact absurd h2 (by decide)
  · exact hne rfl

theorem escapeXML_no_quot (s : List Char) : '"' ∉ escapeXML s := by
  intro h
  rcases mem_replaceAllChar h with h1 | ⟨-, hne⟩
  · exact absurd h1 (by decide)
  · exact hne rfl

/-! ### Lemmas about decimal rendering -/

theorem decValue_append (xs : List Char) (c : Char) :
    decValue (xs ++ [c]) = decValue xs * 10 + dval c := by
  simp [decValue, List.foldl_append]

theorem dval_digitChar {d : Nat} (h : d < 10) : dval (digitChar d) = d := by
  interval_cases d <;> decide

theorem decValue_natToDecAux :
    ∀ fuel n : Nat, n < fuel → decValue (natToDecAux fuel n) = n := by
  intro fuel
  induction fuel with
  | zero => intro n h; omega
  | succ fuel ih =>
    intro n h
    rw [natToDecAux]
    by_cases h10 : n < 10
    · rw [if_pos h10]
      simp [decValue, dval_digitChar h10]
    · rw [if_neg h10, decValue_append, ih (n / 10) (by omega),
        dval_digitChar (Nat.mod_lt n (by omega))]
      omega

theorem decValue_natToDec (n : Nat) : decValue (natToDec n) = n :=
  decValue_natToDecAux (n + 1) n (Nat.lt_succ_self n)

theorem natToDec_inj {n m : Nat} (h : natToDec n = natToDec m) : n = m := by
  have hn := decValue_natToDec n
  rw [h, decValue_natToDec] at hn
  omega

theorem mem_natToDecAux :
    ∀ fuel n : Nat, ∀ c : Char, c ∈ natToDecAux fuel n →
      ∃ d, d < 10 ∧ c = digitChar d := by
  intro fuel
  induction fuel with
  | zero => intro n c h; simp [natToDecAux] at h
  | succ fuel ih =>
    intro n c h
    rw [natToDecAux] at h
    by_cases h10 : n < 10
    · rw [if_pos h10] at h
      simp only [List.mem_singleton] at h
      exact ⟨n, h10, h⟩
    · rw [if_neg h10] at h
      rcases List.mem_append.mp h with h | h
      · exact ih (n / 10) c h
      · simp only [List.mem_singleton] at h
        exact ⟨n % 10, Nat.mod_lt n (by omega), h⟩

theorem underscore_not_mem_natToDec (n : Nat) : '_' ∉ natToDec n := by
  intro h
  obtain ⟨d, hd, hc⟩ := mem_natToDecAux (n + 1) n '_' h
  have : digitChar d ≠ '_' := by interval_cases d <;> decide
  exact this hc.symm

theorem append_sep_inj (a : List Char) :
    ∀ b t1 t2 : List Char, '_' ∉ a → '_' ∉ b →
      a ++ '_' :: t1 = b ++ '_' :: t2 → a = b ∧ t1 = t2 := by
  induction a with
  | nil =>
    intro b t1 t2 _ hb h
    cases b with
    | nil => simpa using h
    | cons d b =>
      simp only [List.nil_append, List.cons_append, List.cons.injEq] at h
      exact absurd (h.1 ▸ List.mem_cons_self d b) hb
  | cons c a ih =>
    intro b t1 t2 ha hb h
    cases b with
    | nil =>
      simp only [List.nil_append, List.cons_append, List.cons.injEq] at h
      exact absurd (h.1 ▸ List.mem_cons_self c a) ha
    | cons d b =>
      simp only [List.cons_append, List.cons.injEq] at h
      obtain ⟨h1, h2⟩ := h
      obtain ⟨hab, ht⟩ :=
        ih b t1 t2 (fun hm => ha (List.mem_cons_of_mem _ hm))
          (fun hm => hb (List.mem_cons_of_mem _ hm)) h2
      exact ⟨by rw [h1, hab], ht⟩

theorem succ_mod_ne {x N : Nat} (hx : x < N) (hN : 1 < N) :
    (x + 1) % N ≠ x := by
  rcases Nat.lt_or_ge (x + 1) N with h | h
  · rw [Nat.mod_eq_of_lt h]; omega
  · have hxN : x + 1 = N := by omega
    rw [hxN, Nat.mod_self]; omega

/-- A URI ending in `".m3u8"` in particular contains the substring `"m3u8"`. -/
theorem suffix_m3u8_contains (uri : List Char)
    (h : goHasSuffix uri ((".m3u8").data) = true) :
    goContains uri (("m3u8").data) = true := by
  obtain ⟨t, rfl⟩ := (goHasSuffix_iff _ _).mp h
  have hx : (".m3u8").data = ['.'] ++ ((("m3u8").data) ++ []) := by decide
  rw [hx, ← List.append_assoc]
  exact goContains_append _ _ _

/-- `findControlURL` yields the empty string when no service type contains
`"AVTransport"`. -/
theorem findControlURL_eq_nil :
    ∀ svcs : List Service,
      (∀ svc ∈ svcs, goContains svc.serviceType (("AVTransport").data) = false) →
      findControlURL svcs = [] := by
  intro svcs
  induction svcs with
  | nil => intro _; rfl
  | cons svc rest ih =>
    intro h
    unfold findControlURL
    rw [h svc (List.mem_cons_self svc rest)]
    exact ih (fun s hs => h s (List.mem_cons_of_mem _ hs))

/-- The resolved control endpoint is non-empty whenever the scanned control
URL is. -/
theorem resolveControlURL_ne_nil (base c : List Char) (hc : c ≠ []) :
    resolveControlURL base c ≠ [] := by
  unfold resolveControlURL
  by_cases h1 : goStartsWith c (("http").data) = true
  · rw [if_pos h1]; exact hc
  · rw [if_neg h1]
    by_cases h2 : goStartsWith c (("/").data) = true
    · rw [if_pos h2]
      intro h3
      exact hc (List.append_eq_nil.mp h3).2
    · rw [if_neg h2]
      intro h3
      have h4 := (List.append_eq_nil.mp h3).2
      exact absurd (List.append_eq_nil.mp h4).1 (by decide)

/-! ## The claims -/

/-- C1: the spec claims the bounded image store never holds more than 10
entries after any store operation.  The code evicts only when the map already
holds strictly more than 10 entries, checked before insertion, so eleven
consecutive stores on a fresh server leave eleven entries resident — the
claimed bound of 10 is exceeded. -/
theorem eleven_stores_exceed_bound :
    10 <
      ((runStores (initStore [] 0) (List.replicate 11 (0, []))).images).length := by
  decide

/-- C2 counterexample: the claim says the content type is
`application/x-mpegURL` exactly when the URI ends with or contains the
substring `".m3u8"`.  The URI `"m3u8"` contains `"m3u8"` but not `".m3u8"`,
and the code still selects `application/x-mpegURL`, contradicting the
claimed `video/mp2t`. -/
theorem videoContentType_counterexample :
    ¬ (videoContentType (("m3u8").data) = videoContentTypeSpec (("m3u8").data)) := by
  decide

/-- C2 (amended): the video control action declares content type
`application/x-mpegURL` in its DIDL-Lite metadata exactly when the URI
contains the dot-less substring `"m3u8"` (the `".m3u8"` suffix check is
subsumed by it), and `video/mp2t` for every other URI; the metadata always
declares the selected content type. -/
theorem videoContentType_char (uri title : List Char) :
    (videoContentType uri = (("application/x-mpegURL").data) ↔
      goContains uri (("m3u8").data) = true)
    ∧ (videoContentType uri = (("video/mp2t").data) ↔
      goContains uri (("m3u8").data) = false)
    ∧ goContains (videoMetadata uri title) (videoContentType uri) = true := by
  have hmeta : goContains (videoMetadata uri title) (videoContentType uri) = true := by
    have := goContains_append
      (vMetaPre ++ title ++ vMetaMid1 ++ upnpClassVideo ++ vMetaMid2)
      (videoContentType uri) (vMetaMid3 ++ uri ++ metaPost)
    simpa [videoMetadata, List.append_assoc] using this
  by_cases hc : goContains uri (("m3u8").data) = true
  · have hct : videoContentType uri = (("application/x-mpegURL").data) := by
      unfold videoContentType
      rw [hc]
      simp
    refine ⟨?_, ?_, hmeta⟩
    · simp [hct, hc]
    · constructor
      · intro h
        rw [hct] at h
        exact absurd h (by decide)
      · intro h
        rw [hc] at h
        exact absurd h (by decide)
  · have hcf : goContains uri (("m3u8").data) = false := by
      cases hgc : goContains uri (("m3u8").data)
      · rfl
      · exact absurd hgc hc
    have hsuf : goHasSuffix uri ((".m3u8").data) = false := by
      cases hs : goHasSuffix uri ((".m3u8").data)
      · rfl
      · exact absurd (suffix_m3u8_contains uri hs) hc
    have hct : videoContentType uri = (("video/mp2t").data) := by
      unfold videoContentType
      rw [hsuf, hcf]
      simp
    refine ⟨?_, ?_, hmeta⟩
    · constructor
      · intro h
        rw [hct] at h
        exact absurd h (by decide)
      · intro h
        exact absurd h hc
    · simp [hct, hcf]

set_option maxRecDepth 20000 in
/-- C3 counterexample: the claim says every string value interpolated into
the SOAP envelope and the DIDL-Lite metadata is escaped for the five XML
metacharacters before embedding.  At the URI consisting of a single
apostrophe the body built by the code differs from that specification: the
code escapes only four metacharacters (never the apostrophe) and embeds the
raw URI into `CurrentURI`. -/
theorem setAVTransportURIBody_counterexample :
    ¬ (setAVTransportURIBody [Char.ofNat 39] =
       setAVTransportURIBodySpecFive [Char.ofNat 39]) := by
  decide

/-- C3 (amended): in both control actions only the DIDL-Lite metadata value
(with the raw URI and title already inside it) is escaped before embedding
into the envelope, and only for the four metacharacters `&`, `<`, `>`, `"` —
the apostrophe is never escaped and the URI interpolated into `CurrentURI`
is embedded raw; the escaped metadata therefore contains no unescaped `<`,
`>` or `"`. -/
theorem setAVTransportURIBody_escaping (uri title : List Char) :
    setAVTransportURIBody uri =
      envPre ++ uri ++ envMid ++ escapeXML (imageMetadata uri) ++ envPost
    ∧ setAVTransportURIForVideoBody uri title =
      envPre ++ uri ++ envMid ++ escapeXML (videoMetadata uri title) ++ envPost
    ∧ '<' ∉ escapeXML (imageMetadata uri)
    ∧ '>' ∉ escapeXML (imageMetadata uri)
    ∧ '"' ∉ escapeXML (imageMetadata uri)
    ∧ '<' ∉ escapeXML (videoMetadata uri title)
    ∧ '>' ∉ escapeXML (videoMetadata uri title)
    ∧ '"' ∉ escapeXML (videoMetadata uri title) :=
  ⟨rfl, rfl, escapeXML_no_lt _, escapeXML_no_gt _, escapeXML_no_quot _,
   escapeXML_no_lt _, escapeXML_no_gt _, escapeXML_no_quot _⟩

/-- C4 counterexample: the claim says any well-formed description containing
an `AVTransport` service decodes successfully.  A description whose only
`AVTransport` service has an empty `controlURL` contains such a service yet
decoding fails with `NoControlServiceFound`, because the empty control URL
is indistinguishable from a missing service after the scan. -/
theorem parseDeviceDescription_counterexample :
    goContains (("urn:schemas-upnp-org:service:AVTransport:1").data)
        (("AVTransport").data) = true
    ∧ parseDeviceDescription
        { urlBase := [], friendlyName := [],
          services :=
            [{ serviceType := ("urn:schemas-upnp-org:service:AVTransport:1").data,
               controlURL := [] }] }
        { scheme := ("http").data, host := ("10.0.0.2:8080").data,
          hostname := ("10.0.0.2").data, port := some 8080 }
      = Except.error ParseErr.noControlServiceFound :=
  ⟨by decide, by decide⟩

/-- C4 (amended): decoding succeeds with a non-empty control endpoint
whenever the service scan finds a non-empty control URL, i.e. whenever the
first service whose type contains `"AVTransport"` has a non-empty
`controlURL`; when no service type contains `"AVTransport"` decoding fails
with `NoControlServiceFound`. -/
theorem parseDeviceDescription_control (desc : DeviceDesc) (loc : LocURL) :
    (findControlURL desc.services ≠ [] →
      ∃ tv, parseDeviceDescription desc loc = Except.ok tv
        ∧ tv.controlURL ≠ [])
    ∧ ((∀ svc ∈ desc.services,
          goContains svc.serviceType (("AVTransport").data) = false) →
      parseDeviceDescription desc loc =
        Except.error ParseErr.noControlServiceFound) := by
  constructor
  · intro h
    have hne : (findControlURL desc.services).isEmpty = false := by
      cases hc : findControlURL desc.services
      · exact absurd hc h
      · rfl
    have heq : parseDeviceDescription desc loc =
        Except.ok
          { name := desc.friendlyName, ip := loc.hostname,
            port := loc.port.getD 80,
            controlURL :=
              resolveControlURL (baseURLOf desc loc)
                (findControlURL desc.services),
            baseURL := baseURLOf desc loc } := by
      unfold parseDeviceDescription
      rw [hne]
      simp
    exact ⟨_, heq, resolveControlURL_ne_nil _ _ h⟩
  · intro h
    have h0 : findControlURL desc.services = [] := findControlURL_eq_nil _ h
    unfold parseDeviceDescription
    rw [h0]
    rfl

/-- C4 witness: a concrete description with one AVTransport service carrying
a relative control path decodes to a record with a non-empty endpoint. -/
theorem parseDeviceDescription_control_witness :
    ∃ tv, parseDeviceDescription
        { urlBase := [], friendlyName := ("TV Salon").data,
          services :=
            [{ serviceType := ("urn:schemas-upnp-org:service:AVTransport:1").data,
               controlURL := ("/upnp/control/AVTransport1").data }] }
        { scheme := ("http").data, host := ("10.0.0.2:8080").data,
          hostname := ("10.0.0.2").data, port := some 8080 }
      = Except.ok tv ∧ tv.controlURL ≠ [] :=
  (parseDeviceDescription_control _ _).1 (by decide)

/-- C5: a non-200 SOAP response yields an error carrying the status code and
the body; a 200 response containing `<UPnPError` yields an error carrying
the raw body; a 200 response without the marker yields success. -/
theorem sendSOAPResult_spec (status : Nat) (rbody : List Char) :
    (status ≠ 200 →
      ∃ e, sendSOAPResult status rbody = Except.error e
        ∧ goContains e (natToDec status) = true
        ∧ goContains e rbody = true)
    ∧ (status = 200 → goContains rbody upnpErrMarker = true →
      ∃ e, sendSOAPResult status rbody = Except.error e
        ∧ goContains e rbody = true)
    ∧ (status = 200 → goContains rbody upnpErrMarker = false →
      sendSOAPResult status rbody = Except.ok ()) := by
  refine ⟨?_, ?_, ?_⟩
  · intro h
    have heq : sendSOAPResult status rbody =
        Except.error
          (("SOAP error: HTTP ").data ++ natToDec status ++ (": ").data ++
            rbody) := by
      unfold sendSOAPResult
      rw [if_pos h]
    refine ⟨_, heq, ?_, ?_⟩
    · have := goContains_append (("SOAP error: HTTP ").data)
        (natToDec status) ((": ").data ++ rbody)
      simpa [List.append_assoc] using this
    · have := goContains_append
        (("SOAP error: HTTP ").data ++ natToDec status ++ (": ").data)
        rbody []
      simpa [List.append_assoc] using this
  · intro h200 hup
    have heq : sendSOAPResult status rbody =
        Except.error (("UPnP error: ").data ++ rbody) := by
      unfold sendSOAPResult
      rw [if_neg (by omega : ¬ status ≠ 200), if_pos hup]
    refine ⟨_, heq, ?_⟩
    have := goContains_append (("UPnP error: ").data) rbody []
    simpa using this
  · intro h200 hup
    unfold sendSOAPResult
    rw [if_neg (by omega : ¬ status ≠ 200), if_neg (by simp [hup])]

/-- C5 witness: HTTP 500 with a concrete body yields an error mentioning the
status digits and the body. -/
theorem sendSOAPResult_spec_witness :
    ∃ e, sendSOAPResult 500 (("boom").data) = Except.error e
      ∧ goContains e (natToDec 500) = true
      ∧ goContains e (("boom").data) = true :=
  (sendSOAPResult_spec 500 (("boom").data)).1 (by decide)

/-- C6: `DisplayJPEG` issues `SetAVTransportURI` first, carrying exactly the
URL returned by the store step, then `Play`; if the set-URI call does not
succeed the error is surfaced and no `Play` is issued; the call succeeds
exactly when both control calls succeed. -/
theorem displayJPEG_sequencing (r : Renderer) (dev : Action → Nat × List Char)
    (tNano : Nat) (p : List Nat) :
    (displayJPEG r dev tNano p).2.2.head? =
      some (Action.setURI (storeStep r.server tNano p).1)
    ∧ (callAction dev (Action.setURI (storeStep r.server tNano p).1) ≠
        Except.ok () →
      (∃ e, (displayJPEG r dev tNano p).1 = Except.error e)
        ∧ Action.play ∉ (displayJPEG r dev tNano p).2.2)
    ∧ ((displayJPEG r dev tNano p).1 = Except.ok () ↔
      callAction dev (Action.setURI (storeStep r.server tNano p).1) =
        Except.ok ()
      ∧ callAction dev Action.play = Except.ok ()) := by
  cases hs : callAction dev (Action.setURI (storeStep r.server tNano p).1) with
  | error e =>
    simp only [displayJPEG, hs]
    exact ⟨rfl, fun _ => ⟨⟨_, rfl⟩, by simp⟩, by simp [hs]⟩
  | ok u =>
    cases u
    cases hp : callAction dev Action.play with
    | error e =>
      simp only [displayJPEG, hs, hp]
      exact ⟨rfl, fun hc => absurd rfl hc, by simp [hs, hp]⟩
    | ok v =>
      cases v
      simp only [displayJPEG, hs, hp]
      exact ⟨rfl, fun hc => absurd rfl hc, by simp [hs, hp]⟩

/-- C6 witness: against a device answering HTTP 500, `DisplayJPEG` on a
fresh renderer returns an error and issues no `Play`. -/
theorem displayJPEG_sequencing_witness :
    (∃ e, (displayJPEG { server := initStore [] 0, playingTVs := [] }
        (fun _ => (500, [])) 0 []).1 = Except.error e)
    ∧ Action.play ∉ (displayJPEG { server := initStore [] 0, playingTVs := [] }
        (fun _ => (500, [])) 0 []).2.2 :=
  (displayJPEG_sequencing _ _ 0 []).2.1 (by decide)

/-- The streaming URL ignores the streaming-slot content. -/
theorem streamURL_update (st : StoreState) (p : List Nat) :
    streamURL (updateLatestFrame st p) = streamURL st := rfl

/-- `DisplayJPEGStream` on an unmarked device whose two control calls
succeed: pushes the frame, issues the pair, marks the device. -/
theorem displayJPEGStream_not_playing (r : Renderer)
    (dev : Action → Nat × List Char) (k : List Char) (p : List Nat)
    (hk : k ∉ r.playingTVs)
    (hset : callAction dev (Action.setURI (streamURL r.server)) = Except.ok ())
    (hplay : callAction dev Action.play = Except.ok ()) :
    displayJPEGStream r dev k p =
      (Except.ok (),
       { server := updateLatestFrame r.server p,
         playingTVs := k :: r.playingTVs },
       [Action.setURI (streamURL r.server), Action.play]) := by
  simp only [displayJPEGStream, streamURL_update]
  rw [if_neg hk, hset, hplay]

/-- `DisplayJPEGStream` on a device already marked playing: only the frame
is updated, no control call is issued. -/
theorem displayJPEGStream_playing (r : Renderer)
    (dev : Action → Nat × List Char) (k : List Char) (p : List Nat)
    (hk : k ∈ r.playingTVs) :
    displayJPEGStream r dev k p =
      (Except.ok (),
       { server := updateLatestFrame r.server p,
         playingTVs := r.playingTVs },
       []) := by
  simp only [displayJPEGStream]
  rw [if_pos hk]

/-- `DisplayJPEGStream` on an unmarked device whose set-URI call fails: the
error is surfaced, no `Play` is issued, the device stays unmarked. -/
theorem displayJPEGStream_setURI_fail (r : Renderer)
    (dev : Action → Nat × List Char) (k : List Char) (p : List Nat)
    (e : List Char) (hk : k ∉ r.playingTVs)
    (hset : callAction dev (Action.setURI (streamURL r.server)) =
      Except.error e) :
    displayJPEGStream r dev k p =
      (Except.error (("set stream URI: ").data ++ e),
       { server := updateLatestFrame r.server p,
         playingTVs := r.playingTVs },
       [Action.setURI (streamURL r.server)]) := by
  simp only [displayJPEGStream, streamURL_update]
  rw [if_neg hk, hset]

/-- `DisplayJPEGStream` on an unmarked device whose play call fails: the
error is surfaced and the device stays unmarked. -/
theorem displayJPEGStream_play_fail (r : Renderer)
    (dev : Action → Nat × List Char) (k : List Char) (p : List Nat)
    (e : List Char) (hk : k ∉ r.playingTVs)
    (hset : callAction dev (Action.setURI (streamURL r.server)) = Except.ok ())
    (hplay : callAction dev Action.play = Except.error e) :
    displayJPEGStream r dev k p =
      (Except.error (("play stream: ").data ++ e),
       { server := updateLatestFrame r.server p,
         playingTVs := r.playingTVs },
       [Action.setURI (streamURL r.server), Action.play]) := by
  simp only [displayJPEGStream, streamURL_update]
  rw [if_neg hk, hset, hplay]

/-- `Renderer.Stop` as an explicit tuple. -/
theorem stopRenderer_eq (r : Renderer) (dev : Action → Nat × List Char)
    (k : List Char) :
    stopRenderer r dev k =
      (callAction dev Action.stop,
       { server := r.server,
         playingTVs := r.playingTVs.filter (fun x => !(x == k)) },
       [Action.stop]) := rfl

/-- Every outcome of a streaming push carries the frame-updated server. -/
theorem displayJPEGStream_server (r : Renderer)
    (dev : Action → Nat × List Char) (k : List Char) (p : List Nat) :
    ((displayJPEGStream r dev k p).2.1).server = updateLatestFrame r.server p := by
  by_cases hk : k ∈ r.playingTVs
  · rw [displayJPEGStream_playing r dev k p hk]
  · cases hs : callAction dev (Action.setURI (streamURL r.server)) with
    | error e => rw [displayJPEGStream_setURI_fail r dev k p e hk hs]
    | ok u =>
      cases u
      cases hp : callAction dev Action.play with
      | error e => rw [displayJPEGStream_play_fail r dev k p e hk hs hp]
      | ok v => cases v; rw [displayJPEGStream_not_playing r dev k p hk hs hp]

/-- `Renderer.Stop` leaves the server untouched. -/
theorem stopRenderer_server (r : Renderer) (dev : Action → Nat × List Char)
    (k : List Char) : ((stopRenderer r dev k).2.1).server = r.server := rfl

/-- `Renderer.Stop` unmarks the stopped device. -/
theorem stopRenderer_unmarks (r : Renderer) (dev : Action → Nat × List Char)
    (k : List Char) : k ∉ ((stopRenderer r dev k).2.1).playingTVs := by
  rw [stopRenderer_eq]
  simp [List.mem_filter]

/-- C7: on a successful device, two consecutive streaming pushes without an
intervening stop issue exactly one `SetAVTransportURI`+`Play` pair in total
(the second push issues nothing), and a stop followed by a new streaming
push issues a fresh pair because the playback-session entry was cleared. -/
theorem streamPush_pairs (r : Renderer) (dev dev2 : Action → Nat × List Char)
    (k : List Char) (p1 p2 p3 : List Nat)
    (hk : k ∉ r.playingTVs)
    (hdev : ∀ a, callAction dev a = Except.ok ())
    (hdev2 : ∀ a, callAction dev2 a = Except.ok ()) :
    (displayJPEGStream r dev k p1).2.2 =
      [Action.setURI (streamURL r.server), Action.play]
    ∧ (displayJPEGStream (displayJPEGStream r dev k p1).2.1 dev k p2).2.2 = []
    ∧ (displayJPEGStream
        (stopRenderer
          (displayJPEGStream (displayJPEGStream r dev k p1).2.1 dev k p2).2.1
          dev k).2.1
        dev2 k p3).2.2 =
      [Action.setURI (streamURL r.server), Action.play] := by
  have e1 := displayJPEGStream_not_playing r dev k p1 hk (hdev _) (hdev _)
  have hk2 : k ∈ ((displayJPEGStream r dev k p1).2.1).playingTVs := by
    rw [e1]; exact List.mem_cons_self k r.playingTVs
  have e2 := displayJPEGStream_playing _ dev k p2 hk2
  have hk3 := stopRenderer_unmarks
    (displayJPEGStream (displayJPEGStream r dev k p1).2.1 dev k p2).2.1 dev k
  have e3 := displayJPEGStream_not_playing _ dev2 k p3 hk3 (hdev2 _) (hdev2 _)
  have hsrv : streamURL
      (((stopRenderer
        (displayJPEGStream (displayJPEGStream r dev k p1).2.1 dev k p2).2.1
        dev k).2.1).server) = streamURL r.server := by
    rw [stopRenderer_server, displayJPEGStream_server,
      displayJPEGStream_server, streamURL_update, streamURL_update]
  refine ⟨by rw [e1], by rw [e2], ?_⟩
  rw [e3]
  simp [hsrv]

/-- C7 witness: a fresh renderer against an always-200 device. -/
theorem streamPush_pairs_witness :
    (displayJPEGStream { server := initStore [] 0, playingTVs := [] }
        (fun _ => (200, [])) (['k']) []).2.2 =
      [Action.setURI (streamURL (initStore [] 0)), Action.play] :=
  (streamPush_pairs { server := initStore [] 0, playingTVs := [] }
    (fun _ => (200, [])) (fun _ => (200, [])) (['k']) [] [] []
    (by decide) (fun a => by cases a <;> rfl)
    (fun a => by cases a <;> rfl)).1

/-- C9: the orchestrator's stop removes the device's playback-session entry
regardless of the SOAP `Stop` outcome (the state change is not rolled back
on error), returns exactly the SOAP call's result, issues exactly the `Stop`
action, and leaves every other device's entry untouched. -/
theorem stopRenderer_clears (r : Renderer) (dev : Action → Nat × List Char)
    (k : List Char) :
    k ∉ ((stopRenderer r dev k).2.1).playingTVs
    ∧ (stopRenderer r dev k).1 = callAction dev Action.stop
    ∧ (stopRenderer r dev k).2.2 = [Action.stop]
    ∧ ∀ k2 : List Char, k2 ≠ k →
        ((k2 ∈ ((stopRenderer r dev k).2.1).playingTVs) ↔
          k2 ∈ r.playingTVs) := by
  refine ⟨?_, rfl, rfl, ?_⟩
  · rw [stopRenderer_eq]
    simp [List.mem_filter]
  · intro k2 hk2
    rw [stopRenderer_eq]
    simp [List.mem_filter, hk2]

/-- C9 witness: with a device answering HTTP 500 to `Stop`, the session
entry for the stopped device is cleared while another device's entry
survives. -/
theorem stopRenderer_clears_witness :
    ((['k'] : List Char) ∉
      ((stopRenderer
        { server := initStore [] 0, playingTVs := [['a'], ['k']] }
        (fun _ => (500, [])) (['k'])).2.1).playingTVs)
    ∧ (((['a'] : List Char) ∈
        ((stopRenderer
          { server := initStore [] 0, playingTVs := [['a'], ['k']] }
          (fun _ => (500, [])) (['k'])).2.1).playingTVs) ↔
      (['a'] : List Char) ∈
        ({ server := initStore [] 0,
           playingTVs := [['a'], ['k']] } : Renderer).playingTVs) :=
  ⟨(stopRenderer_clears _ _ _).1,
   (stopRenderer_clears _ _ _).2.2.2 (['a']) (by decide)⟩

/-- C10: a streaming push on an unmarked device succeeds exactly when both
control calls succeed, marks the device as playing only then, and on
failure leaves the session flag unset so the next push re-attempts the full
`SetAVTransportURI`+`Play` sequence. -/
theorem streamPush_marks (r : Renderer) (dev : Action → Nat × List Char)
    (k : List Char) (p : List Nat) (hk : k ∉ r.playingTVs) :
    ((displayJPEGStream r dev k p).1 = Except.ok () ↔
      callAction dev (Action.setURI (streamURL r.server)) = Except.ok ()
      ∧ callAction dev Action.play = Except.ok ())
    ∧ ((displayJPEGStream r dev k p).1 = Except.ok () →
      k ∈ ((displayJPEGStream r dev k p).2.1).playingTVs)
    ∧ ((displayJPEGStream r dev k p).1 ≠ Except.ok () →
      k ∉ ((displayJPEGStream r dev k p).2.1).playingTVs
      ∧ ∀ (dev2 : Action → Nat × List Char) (p2 : List Nat),
          (∀ a, callAction dev2 a = Except.ok ()) →
          (displayJPEGStream (displayJPEGStream r dev k p).2.1
            dev2 k p2).2.2 =
            [Action.setURI (streamURL r.server), Action.play]) := by
  cases hs : callAction dev (Action.setURI (streamURL r.server)) with
  | error e =>
    have e1 := displayJPEGStream_setURI_fail r dev k p e hk hs
    rw [e1]
    refine ⟨by simp [hs], by simp, fun _ => ⟨hk, ?_⟩⟩
    intro dev2 p2 hdev2
    exact congrArg (fun t => t.2.2)
      (displayJPEGStream_not_playing _ dev2 k p2 hk (hdev2 _) (hdev2 _))
  | ok u =>
    cases u
    cases hp : callAction dev Action.play with
    | error e =>
      have e1 := displayJPEGStream_play_fail r dev k p e hk hs hp
      rw [e1]
      refine ⟨by simp [hs, hp], by simp, fun _ => ⟨hk, ?_⟩⟩
      intro dev2 p2 hdev2
      exact congrArg (fun t => t.2.2)
        (displayJPEGStream_not_playing _ dev2 k p2 hk (hdev2 _) (hdev2 _))
    | ok v =>
      cases v
      have e1 := displayJPEGStream_not_playing r dev k p hk hs hp
      rw [e1]
      exact ⟨by simp [hs, hp], fun _ => List.mem_cons_self k r.playingTVs,
        fun hc => absurd rfl hc⟩

/-- The URL returned by one store step, spelled out. -/
theorem storeStep_fst (st : StoreState) (t : Nat) (p : List Nat) :
    (storeStep st t p).1 =
      ("http://").data ++ st.localIP ++ ((":").data) ++ natToDec st.port ++
        (("/img_").data ++ natToDec ((st.counter + 1) % 2 ^ 64) ++
          (("_").data) ++ natToDec t ++ ((".jpg").data)) := rfl

/-- A store step preserves the server address. -/
theorem storeStep_localIP (st : StoreState) (t : Nat) (p : List Nat) :
    ((storeStep st t p).2).localIP = st.localIP := rfl

/-- A store step preserves the server port. -/
theorem storeStep_port (st : StoreState) (t : Nat) (p : List Nat) :
    ((storeStep st t p).2).port = st.port := rfl

/-- A store step bumps the `uint64` counter. -/
theorem storeStep_counter (st : StoreState) (t : Nat) (p : List Nat) :
    ((storeStep st t p).2).counter = (st.counter + 1) % 2 ^ 64 := rfl

/-- C8: two consecutive store calls, even with byte-identical payloads and
equal timestamps, return distinct URLs: the path key embeds the
monotonically advancing counter, whose decimal digit string differs between
the two calls. -/
theorem store_urls_distinct (st : StoreState) (t1 t2 : Nat) (p : List Nat) :
    (storeStep st t1 p).1 ≠ (storeStep (storeStep st t1 p).2 t2 p).1 := by
  intro h
  rw [storeStep_fst, storeStep_fst, storeStep_localIP, storeStep_port,
    storeStep_counter] at h
  simp only [List.append_assoc] at h
  have h1 := List.append_cancel_left h
  have h2 := List.append_cancel_left h1
  have h3 := List.append_cancel_left h2
  have h4 := List.append_cancel_left h3
  have h5 := List.append_cancel_left h4
  rw [List.singleton_append, List.singleton_append] at h5
  obtain ⟨hid, -⟩ := append_sep_inj _ _ _ _
    (underscore_not_mem_natToDec _) (underscore_not_mem_natToDec _) h5
  have heq := natToDec_inj hid
  have hlt : (st.counter + 1) % 2 ^ 64 < 2 ^ 64 :=
    Nat.mod_lt _ (by positivity)
  exact succ_mod_ne hlt (by norm_num) heq.symm

/-- C10 witness: after a failed first push against an HTTP-500 device, the
fresh renderer's session flag for the device remains unset. -/
theorem streamPush_marks_witness :
    (['k'] : List Char) ∉
      ((displayJPEGStream { server := initStore [] 0, playingTVs := [] }
        (fun _ => (500, [])) (['k']) []).2.1).playingTVs :=
  ((streamPush_marks { server := initStore [] 0, playingTVs := [] }
    (fun _ => (500, [])) (['k']) [] (by decide)).2.2 (by decide)).1

end SmartTV
